import Mathlib

/-!
Verification of `cbz/page.py` (class `PageInfo`): content validation and
metadata derivation for a single comic-book page.

The Python code is embedded shallowly.  Bytes are `List Nat`, Python
exceptions are the `PyErr` type, and the three external libraries the setter
calls (`magic.from_buffer`, `mimetypes.guess_extension`, `imagesize.get`)
together with `base64.b64decode` are abstracted as an environment `Env` of
pure functions, so every theorem quantifies over all possible behaviors of
those libraries unless it explicitly pins a concrete model.
-/

/-- A Python exception, distinguished by its class and message.  The setter
itself only raises `AssertionError` (the allow-list `assert`); `valueError`
is raised by `loads`; `libError` stands for any exception propagating out of
an external-library call (e.g. `magic.MagicException`, `struct.error`). -/
inductive PyErr where
  | assertionError (msg : String)
  | valueError (msg : String)
  | libError (msg : String)
  deriving DecidableEq, Repr

/-- A value of one component of the pair returned by `imagesize.get`: either
a Python `int` or some non-`int` value (the source guards with
`isinstance(width, int)`). -/
inductive PyVal where
  | int (n : Int)
  | nonInt
  deriving DecidableEq, Repr

/-- The `isinstance(_, int)` test from page.py line 61. -/
def PyVal.isInt : PyVal → Bool
  | .int _ => true
  | .nonInt => false

/-- The underlying integer of a `PyVal` (only used under an `isInt` guard). -/
def PyVal.toIntVal : PyVal → Int
  | .int n => n
  | .nonInt => 0

/-- Modelled from the spec: `IMAGE_FORMAT` lives in `cbz/constants.py`, which
is not under `src/`.  The spec describes it as "a fixed allow-list of
supported raster formats (e.g. JPEG, PNG, GIF, WEBP, BMP)" of canonical
lowercase extensions, and states that `.bin` is not a member (the `.bin`
fallback is "guaranteeing failure"). -/
def IMAGE_FORMAT : List String := [".jpg", ".jpeg", ".png", ".gif", ".webp", ".bmp"]

/-- The external libraries used by page.py, abstracted as pure functions:
`sniff` is `magic.from_buffer(value, mime=True)` (may raise), `guessExtension`
is `mimetypes.guess_extension` (returns `None` when no mapping exists),
`probe` is `imagesize.get` over a `BytesIO` of the buffer (may raise, and may
return non-`int` components), and `b64decode` is `base64.b64decode` (may
raise on invalid input). -/
structure Env where
  sniff : List Nat → Except PyErr String
  guessExtension : String → Option String
  probe : List Nat → Except PyErr (PyVal × PyVal)
  b64decode : String → Except PyErr (List Nat)

/-- The observable state of a `PageInfo` instance: the private byte buffer
`__content` plus the four metadata attributes the setter assigns. -/
structure PageInfo where
  content : List Nat
  suffix : String
  image_width : Int
  image_height : Int
  image_size : Nat
  deriving DecidableEq, Repr

/-- The `content` setter, page.py lines 44-67, translated statement by
statement.  A Python exception escaping the setter leaves every attribute
assigned before the raise in place, so failure carries the state as mutated
so far: `env.sniff` raising leaves `st` untouched; the `assert` (line 55) and
a raise from `env.probe` (line 59) happen after `self.suffix` was assigned
(line 54).  `image_width`, `image_height`, `image_size` and `__content`
(lines 64-67) are only assigned after every fallible step, and none of those
four assignments can fail, so success commits all of them. -/
def PageInfo.content_setter (env : Env) (st : PageInfo) (value : List Nat) :
    Except (PyErr × PageInfo) PageInfo :=
  match env.sniff value with
  | .error e => .error (e, st)
  | .ok filetype =>
    let sfx := (env.guessExtension filetype).getD ".bin"
    let st1 : PageInfo := { st with suffix := sfx }
    if sfx ∈ IMAGE_FORMAT then
      match env.probe value with
      | .error e => .error (e, st1)
      | .ok (w, h) =>
        let width : Int := if !w.isInt || !h.isInt then 0 else w.toIntVal
        let height : Int := if !w.isInt || !h.isInt then 0 else h.toIntVal
        .ok { st1 with
              image_width := width
              image_height := height
              image_size := value.length
              content := value }
    else
      .error (.assertionError ("Unsupported image format: " ++ sfx), st1)

/-- Modelled from the spec: the base class `PageModel` (`cbz/models.py`, not
under `src/`) gives the metadata attributes neutral defaults before the first
setter run.  The exact defaults are unobservable: a successful construction
overwrites all five fields, and a failed construction discards the object. -/
def initialState : PageInfo :=
  { content := [], suffix := "", image_width := 0, image_height := 0, image_size := 0 }

/-- `PageInfo.__init__` (page.py lines 23-32): run the content setter on a
fresh instance; if it raises, the exception propagates and the partially
constructed object is discarded, so no instance exists. -/
def PageInfo.init (env : Env) (content : List Nat) : Except PyErr PageInfo :=
  match PageInfo.content_setter env initialState content with
  | .ok st => .ok st
  | .error (e, _) => .error e

/-- The runtime type of the `data` argument of `PageInfo.loads`. -/
inductive PyData where
  | str (s : String)
  | bytes (b : List Nat)
  | other (r : String)

/-- `PageInfo.loads` (page.py lines 69-88): a `str` is base64-decoded first
(a decode error propagates); the `isinstance(data, bytes)` re-check after
decoding is structurally satisfied, since `b64decode` returns bytes, so the
`ValueError` branch is taken exactly for inputs that are neither `str` nor
`bytes` (`r` stands for `repr(data)` of such an input). -/
def PageInfo.loads (env : Env) (data : PyData) : Except PyErr PageInfo :=
  match data with
  | .str s =>
    match env.b64decode s with
    | .error e => .error e
    | .ok b => PageInfo.init env b
  | .bytes b => PageInfo.init env b
  | .other r => .error (.valueError ("Expecting Bytes or Base64 input, got " ++ r))

/-- `PageInfo.load` (page.py lines 90-109): read the file at `path` fully and
construct from the bytes.  The filesystem is a map from paths to contents. -/
def PageInfo.load (env : Env) (fs : String → List Nat) (path : String) :
    Except PyErr PageInfo :=
  PageInfo.init env (fs path)

/-- `PageInfo.save` (page.py lines 111-119): write `content` verbatim to
`path`, returning the updated filesystem. -/
def PageInfo.save (fs : String → List Nat) (st : PageInfo) (path : String) :
    String → List Nat :=
  fun p => if p = path then st.content else fs p

/-! ### A concrete model of the external libraries

Used for counterexamples and witnesses.  It reproduces the documented
behavior of the real libraries on a handful of inputs: libmagic classifies a
buffer beginning with the 8-byte PNG signature as `image/png` (the signature
alone suffices), a buffer beginning with `II*\x00` as `image/tiff`, the empty
buffer as `application/x-empty`, and anything else here as
`application/octet-stream`; `mimetypes.guess_extension` knows `.png`, `.tiff`
and `.bin` but has no mapping for `application/x-empty`; `imagesize.get`
parses width and height from the big-endian IHDR fields of a PNG whose
buffer holds at least 24 bytes, and returns the documented sentinel
`(-1, -1)` whenever it does not recognize the buffer. -/

/-- The 8-byte PNG file signature. -/
def pngSignature : List Nat := [137, 80, 78, 71, 13, 10, 26, 10]

/-- Byte of a buffer at an index, 0 past the end. -/
def byteAt (b : List Nat) (i : Nat) : Nat := b.getD i 0

/-- Big-endian 32-bit integer from four bytes. -/
def be32 (a b c d : Nat) : Int :=
  Int.ofNat (((a * 256 + b) * 256 + c) * 256 + d)

/-- Model of `magic.from_buffer(value, mime=True)`; see the section comment. -/
def sniffModel (b : List Nat) : Except PyErr String :=
  if b = [] then .ok "application/x-empty"
  else if b.take 8 = pngSignature then .ok "image/png"
  else if b.take 4 = [73, 73, 42, 0] then .ok "image/tiff"
  else .ok "application/octet-stream"

/-- Model of `mimetypes.guess_extension`; see the section comment. -/
def guessExtensionModel (t : String) : Option String :=
  if t = "image/png" then some ".png"
  else if t = "image/tiff" then some ".tiff"
  else if t = "application/octet-stream" then some ".bin"
  else none

/-- Model of `imagesize.get`; see the section comment. -/
def probeModel (b : List Nat) : Except PyErr (PyVal × PyVal) :=
  if b.take 8 = pngSignature ∧ 24 ≤ b.length then
    .ok (.int (be32 (byteAt b 16) (byteAt b 17) (byteAt b 18) (byteAt b 19)),
         .int (be32 (byteAt b 20) (byteAt b 21) (byteAt b 22) (byteAt b 23)))
  else
    .ok (.int (-1), .int (-1))

/-- Model of `base64.b64decode`: decodes only the empty string here. -/
def b64decodeModel (s : String) : Except PyErr (List Nat) :=
  if s = "" then .ok [] else .error (.libError "binascii.Error: invalid base64")

/-- The concrete environment assembled from the four library models. -/
def envModel : Env :=
  { sniff := sniffModel
    guessExtension := guessExtensionModel
    probe := probeModel
    b64decode := b64decodeModel }

/-- A complete 24-byte PNG header: signature, IHDR length and tag, width 10,
height 20 (the spec's own 10x20 example). -/
def pngOK : List Nat :=
  pngSignature ++ [0, 0, 0, 13] ++ [73, 72, 68, 82] ++ [0, 0, 0, 10] ++ [0, 0, 0, 20]

/-- A 10-byte truncated PNG: the signature is intact (so libmagic still says
`image/png`) but the IHDR fields are missing, so the dimension probe cannot
determine real dimensions and yields its `(-1, -1)` sentinel. -/
def truncPng : List Nat := pngSignature ++ [0, 0]

/-- A little-endian TIFF signature: sniffed as `image/tiff`, whose extension
`.tiff` is outside the allow-list. -/
def tiffBytes : List Nat := [73, 73, 42, 0]

/-- The instance obtained by constructing from `pngOK`. -/
def stPng : PageInfo :=
  { content := pngOK, suffix := ".png", image_width := 10, image_height := 20,
    image_size := 24 }

/-! ### Case analyses of the setter (shared helper lemmas) -/

/-- If the setter fails, the resulting state is either exactly the prior
state (sniff raised) or the prior state with only `suffix` overwritten by the
newly derived extension (assert failed or probe raised). -/
theorem content_setter_error_cases (env : Env) (st st2 : PageInfo) (v : List Nat)
    (e : PyErr) (h : PageInfo.content_setter env st v = .error (e, st2)) :
    st2 = st ∨
    ∃ t, env.sniff v = .ok t ∧
      st2 = { st with suffix := (env.guessExtension t).getD ".bin" } := by
  unfold PageInfo.content_setter at h
  cases hs : env.sniff v with
  | error e0 =>
    rw [hs] at h
    simp only [Except.error.injEq, Prod.mk.injEq] at h
    exact Or.inl h.2.symm
  | ok t =>
    rw [hs] at h
    simp only [] at h
    split at h
    · cases hp : env.probe v with
      | error e1 =>
        rw [hp] at h
        simp only [Except.error.injEq, Prod.mk.injEq] at h
        exact Or.inr ⟨t, rfl, h.2.symm⟩
      | ok wh =>
        rw [hp] at h
        simp at h
    · simp only [Except.error.injEq, Prod.mk.injEq] at h
      exact Or.inr ⟨t, rfl, h.2.symm⟩

/-- If the setter succeeds, the sniff succeeded, the derived extension passed
the allow-list, the probe succeeded, and the result is the prior state with
all five fields overwritten as in lines 54 and 64-67. -/
theorem content_setter_ok_cases (env : Env) (st st2 : PageInfo) (v : List Nat)
    (h : PageInfo.content_setter env st v = .ok st2) :
    ∃ t w hV, env.sniff v = .ok t ∧
      (env.guessExtension t).getD ".bin" ∈ IMAGE_FORMAT ∧
      env.probe v = .ok (w, hV) ∧
      st2 = { st with
              suffix := (env.guessExtension t).getD ".bin",
              image_width := if !w.isInt || !hV.isInt then 0 else w.toIntVal,
              image_height := if !w.isInt || !hV.isInt then 0 else hV.toIntVal,
              image_size := v.length,
              content := v } := by
  unfold PageInfo.content_setter at h
  cases hs : env.sniff v with
  | error e0 => rw [hs] at h; simp at h
  | ok t =>
    rw [hs] at h
    simp only [] at h
    split at h
    · cases hp : env.probe v with
      | error e1 => rw [hp] at h; simp at h
      | ok wh =>
        rw [hp] at h
        obtain ⟨w, hV⟩ := wh
        simp only [Except.ok.injEq] at h
        refine ⟨t, w, hV, rfl, by assumption, rfl, h.symm⟩
    · simp at h

/-- A successful construction stores exactly the input bytes as `content`. -/
theorem init_content (env : Env) (b : List Nat) (st : PageInfo)
    (h : PageInfo.init env b = .ok st) : st.content = b := by
  unfold PageInfo.init at h
  cases hcs : PageInfo.content_setter env initialState b with
  | ok st3 =>
    rw [hcs] at h
    simp only [Except.ok.injEq] at h
    subst h
    obtain ⟨t, w, hV, _, _, _, h2⟩ := content_setter_ok_cases _ _ _ _ hcs
    subst h2
    rfl
  | error p =>
    obtain ⟨e0, stx⟩ := p
    rw [hcs] at h
    simp at h

/-! ### The claims -/

/-- Claim C1, counterexample: replacing the content of a valid `.png`
instance with TIFF bytes fails on the allow-list assert, yet the failed
instance's `suffix` is `.tiff`, not its prior `.png` value — the observable
state did change. -/
theorem replace_failure_changes_suffix_cex :
    PageInfo.content_setter envModel stPng tiffBytes =
      .error (.assertionError "Unsupported image format: .tiff",
              { stPng with suffix := ".tiff" }) ∧
    (".tiff" : String) ≠ stPng.suffix :=
  ⟨rfl, by decide⟩

/-- Claim C1, amended: for every failed replace, `content`, `image_width`,
`image_height` and `image_size` retain their prior values (the `suffix`
field, however, may already have been overwritten). -/
theorem replace_failure_preserves_core_fields (env : Env) (st st2 : PageInfo)
    (v : List Nat) (e : PyErr)
    (h : PageInfo.content_setter env st v = .error (e, st2)) :
    st2.content = st.content ∧ st2.image_width = st.image_width ∧
    st2.image_height = st.image_height ∧ st2.image_size = st.image_size := by
  rcases content_setter_error_cases env st st2 v e h with h1 | ⟨t, _, h1⟩ <;>
    subst h1 <;> exact ⟨rfl, rfl, rfl, rfl⟩

/-- Claim C1, witness at the TIFF replacement of `stPng`. -/
theorem replace_failure_preserves_core_fields_witness :
    ({ stPng with suffix := ".tiff" } : PageInfo).content = stPng.content ∧
    ({ stPng with suffix := ".tiff" } : PageInfo).image_width = stPng.image_width ∧
    ({ stPng with suffix := ".tiff" } : PageInfo).image_height = stPng.image_height ∧
    ({ stPng with suffix := ".tiff" } : PageInfo).image_size = stPng.image_size :=
  replace_failure_preserves_core_fields envModel stPng { stPng with suffix := ".tiff" }
    tiffBytes (.assertionError "Unsupported image format: .tiff") rfl

/-- Claim C2, counterexample: constructing from a truncated PNG (signature
intact, header fields missing) is accepted, and the stored dimensions are the
probe's integer sentinel `(-1, -1)` — negative, not the claimed `0, 0`
substitution for an indeterminate result. -/
theorem accepted_negative_dimensions_cex :
    (PageInfo.init envModel truncPng).toOption.map
        (fun st => (st.image_width, st.image_height)) = some (-1, -1) ∧
    (-1 : Int) < 0 :=
  ⟨rfl, by decide⟩

/-- Claim C2, amended: on every accepted byte sequence the dimensions are set
to `0, 0` exactly when the probe returns a non-`int` component; an integer
probe result — including a negative sentinel — is stored unchanged. -/
theorem dimensions_zero_only_on_nonint_probe (env : Env) (st st2 : PageInfo)
    (v : List Nat) (h : PageInfo.content_setter env st v = .ok st2) :
    ∃ w hV, env.probe v = .ok (w, hV) ∧
      ((w.isInt && hV.isInt) = true →
        st2.image_width = w.toIntVal ∧ st2.image_height = hV.toIntVal) ∧
      ((w.isInt && hV.isInt) = false →
        st2.image_width = 0 ∧ st2.image_height = 0) := by
  obtain ⟨t, w, hV, hs, hin, hp, h2⟩ := content_setter_ok_cases env st st2 v h
  subst h2
  refine ⟨w, hV, hp, ?_, ?_⟩
  · intro hb
    have hb2 : w.isInt = true ∧ hV.isInt = true := by simpa using hb
    simp [hb2.1, hb2.2]
  · intro hb
    have hor : (!w.isInt || !hV.isInt) = true := by
      rw [← Bool.not_and, hb]
      rfl
    simp [hor]

/-- Claim C2, witness at the well-formed 10x20 PNG. -/
theorem dimensions_zero_only_on_nonint_probe_witness :
    ∃ w hV, envModel.probe pngOK = .ok (w, hV) ∧
      ((w.isInt && hV.isInt) = true →
        stPng.image_width = w.toIntVal ∧ stPng.image_height = hV.toIntVal) ∧
      ((w.isInt && hV.isInt) = false →
        stPng.image_width = 0 ∧ stPng.image_height = 0) :=
  dimensions_zero_only_on_nonint_probe envModel initialState stPng pngOK rfl

/-- Claim C3, counterexample: a failed replace (bytes sniffed as
`application/octet-stream`, mapped to `.bin`) leaves the instance with
`suffix = ".bin"`, which is outside `IMAGE_FORMAT` — so an observable state
with a suffix outside the allow-list does exist. -/
theorem failed_replace_suffix_outside_allowlist_cex :
    PageInfo.content_setter envModel stPng [1, 2, 3] =
      .error (.assertionError "Unsupported image format: .bin",
              { stPng with suffix := ".bin" }) ∧
    ({ stPng with suffix := ".bin" } : PageInfo).suffix ∉ IMAGE_FORMAT :=
  ⟨rfl, by decide⟩

/-- Claim C3, amended: after a successful construction or a successful
replace the stored suffix is a member of `IMAGE_FORMAT`; only a failed
replace can leave a suffix outside the allow-list. -/
theorem success_suffix_in_allowlist (env : Env) (st st2 : PageInfo) (v : List Nat) :
    (PageInfo.content_setter env st v = .ok st2 → st2.suffix ∈ IMAGE_FORMAT) ∧
    (PageInfo.init env v = .ok st2 → st2.suffix ∈ IMAGE_FORMAT) := by
  constructor
  · intro h
    obtain ⟨t, w, hV, _, hin, _, h2⟩ := content_setter_ok_cases env st st2 v h
    subst h2
    exact hin
  · intro h
    unfold PageInfo.init at h
    cases hc : PageInfo.content_setter env initialState v with
    | ok st3 =>
      rw [hc] at h
      simp only [Except.ok.injEq] at h
      subst h
      obtain ⟨t, w, hV, _, hin, _, h2⟩ := content_setter_ok_cases env initialState st3 v hc
      subst h2
      exact hin
    | error p =>
      obtain ⟨e0, stx⟩ := p
      rw [hc] at h
      simp at h

/-- Claim C3, witness at the well-formed 10x20 PNG. -/
theorem success_suffix_in_allowlist_witness : stPng.suffix ∈ IMAGE_FORMAT :=
  (success_suffix_in_allowlist envModel initialState stPng pngOK).2 rfl

/-- Claim C4, counterexample: empty input is sniffed (`application/x-empty`),
reaches the MIME-to-extension mapping, falls back to `.bin`, and fails with
`AssertionError "Unsupported image format: .bin"` — the very same error class
and shape as the allow-list rejection of a TIFF buffer, not a distinct
failure raised before the mapping step. -/
theorem empty_input_reaches_mapping_cex :
    PageInfo.init envModel [] =
      .error (.assertionError "Unsupported image format: .bin") ∧
    PageInfo.init envModel tiffBytes =
      .error (.assertionError "Unsupported image format: .tiff") :=
  ⟨rfl, rfl⟩

/-- Claim C4, amended: for empty byte input construction fails, but via the
`.bin` fallback of the mapping step and the same assertion-style
unsupported-format rejection used for allow-list failures; no distinct
unrecognized-content failure exists. -/
theorem empty_input_fails_as_unsupported_bin (env : Env)
    (h1 : env.sniff [] = .ok "application/x-empty")
    (h2 : env.guessExtension "application/x-empty" = none) :
    PageInfo.init env [] =
      .error (.assertionError "Unsupported image format: .bin") := by
  unfold PageInfo.init PageInfo.content_setter
  rw [h1]
  simp only [h2, Option.getD_none]
  rw [if_neg (by decide : ¬ ((".bin" : String) ∈ IMAGE_FORMAT))]
  rfl

/-- Claim C4, witness at the concrete library model. -/
theorem empty_input_fails_as_unsupported_bin_witness :
    PageInfo.init envModel [] =
      .error (.assertionError "Unsupported image format: .bin") :=
  empty_input_fails_as_unsupported_bin envModel rfl rfl

/-- Claim C5: whenever the sniffed MIME type has no extension mapping, the
derived suffix falls back to `.bin`, and the operation necessarily fails on
the allow-list assert naming `.bin`, because `.bin` is not a member of
`IMAGE_FORMAT`. -/
theorem unmapped_mime_falls_back_to_bin_and_fails (env : Env) (st : PageInfo)
    (v : List Nat) (t : String) (h1 : env.sniff v = .ok t)
    (h2 : env.guessExtension t = none) :
    PageInfo.content_setter env st v =
      .error (.assertionError "Unsupported image format: .bin",
              { st with suffix := ".bin" }) ∧
    ".bin" ∉ IMAGE_FORMAT := by
  refine ⟨?_, by decide⟩
  unfold PageInfo.content_setter
  rw [h1]
  simp only [h2, Option.getD_none]
  rw [if_neg (by decide : ¬ ((".bin" : String) ∈ IMAGE_FORMAT))]
  rfl

/-- Claim C5, witness: empty bytes sniff to `application/x-empty`, which has
no extension mapping. -/
theorem unmapped_mime_falls_back_to_bin_and_fails_witness :
    PageInfo.content_setter envModel stPng [] =
      .error (.assertionError "Unsupported image format: .bin",
              { stPng with suffix := ".bin" }) ∧
    ".bin" ∉ IMAGE_FORMAT :=
  unmapped_mime_falls_back_to_bin_and_fails envModel stPng [] "application/x-empty" rfl rfl

/-- Claim C6: `image_size` equals the byte length of `content` after
construction, after every successful replace, and — provided it held before —
after every failed replace (failure changes neither field). -/
theorem image_size_matches_content_length (env : Env) (st st2 : PageInfo)
    (v : List Nat) :
    (PageInfo.init env v = .ok st2 → st2.image_size = st2.content.length) ∧
    (PageInfo.content_setter env st v = .ok st2 →
      st2.image_size = st2.content.length) ∧
    (∀ e, PageInfo.content_setter env st v = .error (e, st2) →
      st.image_size = st.content.length → st2.image_size = st2.content.length) := by
  have hok : ∀ st0 st3, PageInfo.content_setter env st0 v = .ok st3 →
      st3.image_size = st3.content.length := by
    intro st0 st3 h
    obtain ⟨t, w, hV, _, _, _, h2⟩ := content_setter_ok_cases env st0 st3 v h
    subst h2
    rfl
  refine ⟨?_, hok st st2, ?_⟩
  · intro h
    unfold PageInfo.init at h
    cases hc : PageInfo.content_setter env initialState v with
    | ok st3 =>
      rw [hc] at h
      simp only [Except.ok.injEq] at h
      subst h
      exact hok initialState st3 hc
    | error p =>
      obtain ⟨e0, stx⟩ := p
      rw [hc] at h
      simp at h
  · intro e h hinv
    rcases content_setter_error_cases env st st2 v e h with h1 | ⟨t, _, h1⟩ <;>
      subst h1 <;> exact hinv

/-- Claim C6, witness at the well-formed 10x20 PNG. -/
theorem image_size_matches_content_length_witness :
    stPng.image_size = stPng.content.length :=
  (image_size_matches_content_length envModel initialState stPng pngOK).1 rfl

/-- Claim C7: saving a constructed instance's content to a path and reloading
that path yields the very same instance — identical content and identical
derived metadata. -/
theorem save_load_roundtrip (env : Env) (fs : String → List Nat) (path : String)
    (b : List Nat) (st : PageInfo) (h : PageInfo.init env b = .ok st) :
    PageInfo.load env (PageInfo.save fs st path) path = .ok st := by
  have hc : st.content = b := init_content env b st h
  unfold PageInfo.load PageInfo.save
  rw [if_pos rfl, hc]
  exact h

/-- Claim C7, witness: round trip of the 10x20 PNG instance through an empty
filesystem. -/
theorem save_load_roundtrip_witness :
    PageInfo.load envModel (PageInfo.save (fun _ => []) stPng "page.png") "page.png" =
      .ok stPng :=
  save_load_roundtrip envModel (fun _ => []) "page.png" pngOK stPng rfl

/-- Claim C8: construction is a pure function of the bytes — running it twice
on the same buffer under the same library behavior either fails both times
with the same error or yields two instances agreeing on content and on every
metadata field. -/
theorem construction_deterministic (env : Env) (b : List Nat) :
    (∃ e1 e2, PageInfo.init env b = .error e1 ∧ PageInfo.init env b = .error e2 ∧
      e1 = e2) ∨
    (∃ st1 st2, PageInfo.init env b = .ok st1 ∧ PageInfo.init env b = .ok st2 ∧
      st1.content = st2.content ∧ st1.suffix = st2.suffix ∧
      st1.image_width = st2.image_width ∧ st1.image_height = st2.image_height ∧
      st1.image_size = st2.image_size) := by
  cases h : PageInfo.init env b with
  | error e => exact Or.inl ⟨e, e, rfl, rfl, rfl⟩
  | ok st => exact Or.inr ⟨st, st, rfl, rfl, rfl, rfl, rfl, rfl, rfl⟩

/-- Claim C9: a failed replace preserves `content`, `image_width`,
`image_height` and `image_size`; only `suffix` may have been overwritten, and
then exactly with the extension newly derived from the sniffed type (with the
`.bin` fallback). -/
theorem setter_failure_frame (env : Env) (st st2 : PageInfo) (v : List Nat)
    (e : PyErr) (h : PageInfo.content_setter env st v = .error (e, st2)) :
    st2.content = st.content ∧ st2.image_width = st.image_width ∧
    st2.image_height = st.image_height ∧ st2.image_size = st.image_size ∧
    (st2.suffix = st.suffix ∨
      ∃ t, env.sniff v = .ok t ∧
        st2.suffix = (env.guessExtension t).getD ".bin") := by
  rcases content_setter_error_cases env st st2 v e h with h1 | ⟨t, ht, h1⟩
  · subst h1
    exact ⟨rfl, rfl, rfl, rfl, Or.inl rfl⟩
  · subst h1
    exact ⟨rfl, rfl, rfl, rfl, Or.inr ⟨t, ht, rfl⟩⟩

/-- Claim C9, witness at the empty-bytes replacement of `stPng`. -/
theorem setter_failure_frame_witness :
    ({ stPng with suffix := ".bin" } : PageInfo).content = stPng.content ∧
    ({ stPng with suffix := ".bin" } : PageInfo).image_width = stPng.image_width ∧
    ({ stPng with suffix := ".bin" } : PageInfo).image_height = stPng.image_height ∧
    ({ stPng with suffix := ".bin" } : PageInfo).image_size = stPng.image_size ∧
    (({ stPng with suffix := ".bin" } : PageInfo).suffix = stPng.suffix ∨
      ∃ t, envModel.sniff [] = .ok t ∧
        ({ stPng with suffix := ".bin" } : PageInfo).suffix =
          (envModel.guessExtension t).getD ".bin") :=
  setter_failure_frame envModel stPng { stPng with suffix := ".bin" } []
    (.assertionError "Unsupported image format: .bin") rfl

/-- Claim C10: `loads` on raw bytes is exactly direct construction (no base64
decoding), `loads` on a string is construction applied to the base64 decoding
of the string (a decode error propagating), and the `ValueError` branch is
taken only for inputs that are neither `str` nor `bytes`. -/
theorem loads_dispatch (env : Env) (b : List Nat) (s r : String) :
    PageInfo.loads env (.bytes b) = PageInfo.init env b ∧
    PageInfo.loads env (.str s) = (env.b64decode s).bind (PageInfo.init env) ∧
    PageInfo.loads env (.other r) =
      .error (.valueError ("Expecting Bytes or Base64 input, got " ++ r)) := by
  refine ⟨rfl, ?_, rfl⟩
  cases hd : env.b64decode s <;> simp [PageInfo.loads, Except.bind, hd]
